import Mathlib

/-!
Verification of the Zoho newsletter-subscription API route
(`src/app/api/zoho/subscribe/route.js`) of the Aarna-law website.

The development shallowly embeds the route's token broker (in-memory token
cache with single-flight refresh), its error classifier (`mapZohoError`), the
request-body validation and payload normalization of the `POST` handler, and
— for the concurrency property — a small transition system whose atomic steps
are the run-to-completion segments of the JavaScript event loop between
`await` points.

Conventions of the embedding:
* JavaScript timestamps (`Date.now()`, `expires_at`) are `Nat` milliseconds.
* A JavaScript value that may be `null`/`undefined` is an `Option`.
* JavaScript string truthiness (`!s` is true for `null`, `undefined`, `""`)
  is `optTruthy`.
* Arithmetic comparisons that can go negative in JavaScript
  (`now < expires_at - 30000`) are stated over `Int`.
-/

namespace AarnaZoho

/-- Characters treated as whitespace by the embedding of JavaScript
`String.prototype.trim` (the common whitespace characters occurring in
form input: space, tab, line feed, carriage return). -/
def jsWS (c : Char) : Bool :=
  c = ' ' || c = '\t' || c = '\n' || c = '\r'

/-- Embedding of JavaScript `trim()` on a character list: drop leading and
trailing whitespace. -/
def trimChars (l : List Char) : List Char :=
  ((l.dropWhile jsWS).reverse.dropWhile jsWS).reverse

/-- Embedding of JavaScript `String.prototype.trim`. -/
def jsTrim (s : String) : String :=
  ⟨trimChars s.data⟩

/-- Does `hay` contain `needle` as a contiguous sublist?  Used to embed
JavaScript `String.prototype.includes` and substring regexp tests. -/
def hasSub (hay needle : List Char) : Bool :=
  match hay with
  | [] => needle.isEmpty
  | _ :: t => needle.isPrefixOf hay || hasSub t needle

/-- Embedding of JavaScript `String.prototype.toLowerCase` (character-wise
lowercasing). -/
def lowerStr (s : String) : String :=
  ⟨s.data.map Char.toLower⟩

/-- Case-insensitive substring test: embedding of `/needle/i.test(hay)` and of
`hay.toLowerCase().includes(needle)` for an already-lowercase `needle`. -/
def containsCI (hay needle : String) : Bool :=
  hasSub (lowerStr hay).data (lowerStr needle).data

/-- JavaScript truthiness of a nullable string: `null`/`undefined` and the
empty string are falsy. -/
def optTruthy (o : Option String) : Bool :=
  match o with
  | none => false
  | some s => s ≠ ""

/-- Embedding of JavaScript `a || b` on nullable strings: `b` when `a` is
falsy (absent or empty), else `a`. -/
def jsOr (a b : Option String) : Option String :=
  match a with
  | none => b
  | some s => if s = "" then b else some s

/-- The in-memory token cache `globalThis.__ZOHO_TOKEN_CACHE` of the route
(route.js lines 13-19).  `refreshActive` embeds `refreshPromise !== null`. -/
structure TokenCache where
  access_token : Option String
  expires_at : Nat
  refreshActive : Bool
  deriving Repr, DecidableEq

/-- The initial cache installed when the module loads: no token, expiry 0,
no refresh in flight. -/
def initialCache : TokenCache :=
  { access_token := none, expires_at := 0, refreshActive := false }

/-- The cached-token validity check of `getZohoAccessToken` (route.js lines
32-36): token truthy, `expires_at` truthy (nonzero), and
`now < expires_at - 30000` evaluated in ordinary (signed) arithmetic. -/
def isCacheValid (c : TokenCache) (now : Nat) : Bool :=
  optTruthy c.access_token && decide (c.expires_at ≠ 0) &&
    decide ((now : Int) < (c.expires_at : Int) - 30000)

/-- The fast path of `getZohoAccessToken` (route.js lines 32-38): return the
cached token exactly when the validity check passes. -/
def getTokenFast (c : TokenCache) (now : Nat) : Option String :=
  if isCacheValid c now then c.access_token else none

/-- The OAuth-related environment variables read by `getZohoAccessToken`
(route.js lines 47-51); each may be unset. -/
structure Env where
  ZOHO_CRM_REFRESH_TOKEN : Option String
  ZOHO_CRM_CLIENT_ID : Option String
  ZOHO_CRM_CLIENT_SECRET : Option String
  ZOHO_CRM_ACCOUNTS_DOMAIN : Option String
  deriving Repr, DecidableEq

/-- Embedding of `process.env.X?.trim()`: `undefined` stays `undefined`,
a present value is trimmed. -/
def envTrim (o : Option String) : Option String :=
  o.map jsTrim

/-- The configuration extracted by `getZohoAccessToken` once present
(route.js lines 47-61). -/
structure ZohoConfig where
  refreshToken : String
  clientId : String
  clientSecret : String
  accountsDomain : String
  deriving Repr, DecidableEq

/-- Embedding of route.js lines 47-61: trim the three credentials, default
the accounts domain, and fail with the list of missing variable names when
any of the three credentials is absent or blank. -/
def getZohoConfig (env : Env) : Except (List String) ZohoConfig :=
  let refreshToken := envTrim env.ZOHO_CRM_REFRESH_TOKEN
  let clientId := envTrim env.ZOHO_CRM_CLIENT_ID
  let clientSecret := envTrim env.ZOHO_CRM_CLIENT_SECRET
  let accountsDomain :=
    match jsOr (envTrim env.ZOHO_CRM_ACCOUNTS_DOMAIN)
        (some "https://accounts.zoho.in") with
    | some s => s
    | none => "https://accounts.zoho.in"
  if optTruthy refreshToken && optTruthy clientId && optTruthy clientSecret then
    .ok { refreshToken := refreshToken.getD ""
          clientId := clientId.getD ""
          clientSecret := clientSecret.getD ""
          accountsDomain := accountsDomain }
  else
    .error
      ((if optTruthy refreshToken then [] else ["ZOHO_CRM_REFRESH_TOKEN"]) ++
       (if optTruthy clientId then [] else ["ZOHO_CRM_CLIENT_ID"]) ++
       (if optTruthy clientSecret then [] else ["ZOHO_CRM_CLIENT_SECRET"]))

/-- The body of the token-endpoint JSON response, as consulted by
route.js lines 89-102. -/
structure TokenRespData where
  access_token : Option String
  expires_in : Option Nat
  error_description : Option String
  error : Option String
  message : Option String
  deriving Repr, DecidableEq

/-- Outcome of the token exchange with the Identity Provider, as observed at
the decision point of route.js line 89: `success` when the HTTP response was
ok and `access_token` was truthy, `failure` otherwise (non-2xx, missing
token, or an unparsable body). -/
inductive TokenExchangeResult where
  | success (tok : String) (expires_in : Option Nat)
  | failure (msg : String)
  deriving Repr, DecidableEq

/-- Embedding of the validation of the parsed token response (route.js lines
89-102): a refresh succeeds exactly when `tokenResponse.ok` and
`tokenData.access_token` is truthy; otherwise the error message falls back
through `error_description`, `error`, `message` to a fixed string. -/
def validateTokenResponse (respOk : Bool) (td : TokenRespData) :
    TokenExchangeResult :=
  match td.access_token with
  | some t =>
      if respOk && t ≠ "" then .success t td.expires_in
      else .failure (tokenErrMsg td)
  | none => .failure (tokenErrMsg td)
where
  /-- `error_description || error || message || "Unknown token error"`
  (route.js lines 91-95). -/
  tokenErrMsg (td : TokenRespData) : String :=
    (jsOr td.error_description (jsOr td.error
        (jsOr td.message (some "Unknown token error")))).getD
      "Unknown token error"

/-- Embedding of JavaScript `tokenData.expires_in || 3600` (route.js line
102): any falsy value (absent, or the number 0) is replaced by 3600. -/
def defaultExpiresIn (o : Option Nat) : Nat :=
  match o with
  | none => 3600
  | some n => if n = 0 then 3600 else n

/-- Combined effect on the cache of one refresh operation settling, together
with the value/error the awaiting callers observe (route.js lines 99-120):
on success the token is installed with expiry `now2 + expires_in * 1000` and
the refresh handle is cleared (the `finally` of line 107); on failure the
handle is cleared and the outer `catch` (lines 115-119) also clears the
cached token and expiry. `now2` is the `Date.now()` of line 104. -/
def runRefresh (_c : TokenCache) (r : TokenExchangeResult) (now2 : Nat) :
    TokenCache × Except String String :=
  match r with
  | .success tok ei =>
      ({ access_token := some tok
         expires_at := now2 + defaultExpiresIn ei * 1000
         refreshActive := false },
       .ok tok)
  | .failure m =>
      ({ access_token := none, expires_at := 0, refreshActive := false },
       .error m)

/-- The action `getZohoAccessToken` takes in its first synchronous segment
(route.js lines 27-64), before any `await`. -/
inductive BrokerAction where
  | returnCached (tok : String)
  | awaitExisting
  | configError (missing : List String)
  | startRefresh (cfg : ZohoConfig)
  deriving Repr, DecidableEq

/-- The decision sequence of `getZohoAccessToken` (route.js lines 27-64):
valid cache hit first, then joining an in-flight refresh, then the
configuration check, and only then starting a new refresh. -/
def getTokenStep (env : Env) (c : TokenCache) (now : Nat) : BrokerAction :=
  if isCacheValid c now then .returnCached (c.access_token.getD "")
  else if c.refreshActive then .awaitExisting
  else
    match getZohoConfig env with
    | .error missing => .configError missing
    | .ok cfg => .startRefresh cfg

/-- The `details` object of a Zoho response item, as consulted by
`mapZohoError` (`details.api_name`) and by the success path
(`details.id`, route.js line 325). -/
structure ZohoDetails where
  api_name : Option String
  id : Option String
  deriving Repr, DecidableEq

/-- Result of `mapZohoError` (route.js lines 131-192): a user-facing
message, an optional duplicated-field name, and an HTTP status. -/
structure ErrorMapping where
  message : String
  duplicateField : Option String
  status : Nat
  deriving Repr, DecidableEq

/-- The fixed message of the duplicate branch of `mapZohoError`. -/
def dupEmailMsg : String :=
  "This email address is already subscribed. Please use a different email address."

/-- Embedding of `mapZohoError` (route.js lines 131-192).  The
`DUPLICATE_DATA` branch determines `duplicateField` by the ordered fallback
of the source: `errorDetails?.api_name` first (lowercased, equal to or
containing "email"), then a case-insensitive "email" search in the message
(an absent message is the string "undefined" under JavaScript's regexp
coercion), then the fixed default "Email". -/
def mapZohoError (errorCode : Option String) (errorMessage : Option String)
    (errorDetails : Option ZohoDetails) : ErrorMapping :=
  let defaultMessage :=
    (jsOr errorMessage (some "Failed to subscribe. Please try again.")).getD
      "Failed to subscribe. Please try again."
  if errorCode = some "DUPLICATE_DATA" then
    let fromApiName : Option String :=
      match errorDetails with
      | some d =>
          match d.api_name with
          | some a =>
              if a ≠ "" then
                let apiName := lowerStr a
                if apiName = "email" || hasSub apiName.data "email".data then
                  some "Email"
                else none
              else none
          | none => none
      | none => none
    let fromMessage : Option String :=
      match fromApiName with
      | some f => some f
      | none =>
          if containsCI (errorMessage.getD "undefined") "email" then
            some "Email"
          else none
    let duplicateField : String :=
      match fromMessage with
      | some f => f
      | none => "Email"
    { message := dupEmailMsg, duplicateField := some duplicateField,
      status := 409 }
  else if errorCode = some "MANDATORY_NOT_FOUND" then
    { message := "Required information is missing. Please fill all required fields."
      duplicateField := none, status := 400 }
  else if errorCode = some "INVALID_DATA" then
    { message := "Invalid information provided. Please check your input and try again."
      duplicateField := none, status := 400 }
  else if errorCode = some "AUTHENTICATION_FAILURE" then
    { message := "Authentication error. Please contact support."
      duplicateField := none, status := 401 }
  else
    { message := defaultMessage, duplicateField := none
      status := if errorCode = some "DUPLICATE_DATA" then 409 else 400 }

/-- One item of the `data` array of a Zoho CRM response
(route.js lines 312-316). -/
structure ZohoRespItem where
  code : Option String
  status : Option String
  message : Option String
  details : Option ZohoDetails
  deriving Repr, DecidableEq

/-- A parsed Zoho CRM response body: an optional `data` array and an
optional top-level `message`. -/
structure ZohoResponse where
  data : Option (List ZohoRespItem)
  message : Option String
  deriving Repr, DecidableEq

/-- `responseData.data?.[0]` (route.js line 312). -/
def respItem (r : ZohoResponse) : Option ZohoRespItem :=
  r.data.bind List.head?

/-- `responseItem?.code` (route.js line 313). -/
def respCode (r : ZohoResponse) : Option String :=
  (respItem r).bind (fun i => i.code)

/-- `responseItem?.status` (route.js line 314). -/
def respStatus (r : ZohoResponse) : Option String :=
  (respItem r).bind (fun i => i.status)

/-- `responseItem?.message || responseData.message` (route.js line 315). -/
def respMessage (r : ZohoResponse) : Option String :=
  jsOr ((respItem r).bind (fun i => i.message)) r.message

/-- `responseItem?.details` (route.js line 316). -/
def respDetails (r : ZohoResponse) : Option ZohoDetails :=
  (respItem r).bind (fun i => i.details)

/-- The lenient success test of route.js lines 318-321: structured code
`"SUCCESS"`, structured status `"success"`, or a truthy message matching
`/record added|success/i`. -/
def isSuccessResp (r : ZohoResponse) : Bool :=
  respCode r = some "SUCCESS" || respStatus r = some "success" ||
    (optTruthy (respMessage r) &&
      (containsCI ((respMessage r).getD "") "record added" ||
        containsCI ((respMessage r).getD "") "success"))

/-- The JSON body and status the route returns to its caller; fields absent
from a given path are `none`. -/
structure ApiResponse where
  status : Nat
  success : Option Bool
  recordId : Option String
  message : Option String
  error : Option String
  duplicateField : Option String
  details : Option String
  deriving Repr, DecidableEq

/-- Embedding of the response handling of the `POST` handler for a parsed
Zoho response (route.js lines 312-354): the success branch returns 200 with
`success`, `recordId` (= `details.id`) and a fixed message; any other
response is classified by `mapZohoError`, whose status, message and
`duplicateField` are forwarded. -/
def handleZohoResponse (r : ZohoResponse) : ApiResponse :=
  if isSuccessResp r then
    { status := 200, success := some true
      recordId := (respDetails r).bind (fun d => d.id)
      message := some "Successfully subscribed to newsletter"
      error := none, duplicateField := none, details := none }
  else
    let m := mapZohoError (respCode r) (respMessage r) (respDetails r)
    { status := m.status, success := none, recordId := none, message := none
      error := some m.message, duplicateField := m.duplicateField
      details := none }

/-- Split a character list at commas; embedding of JavaScript
`String.prototype.split(",")` (splitting `""` yields `[""]`). -/
def splitCommaAux (l : List Char) (acc : List Char) : List (List Char) :=
  match l with
  | [] => [acc.reverse]
  | c :: rest =>
      if c = ',' then acc.reverse :: splitCommaAux rest []
      else splitCommaAux rest (c :: acc)

/-- `s.split(",")` on strings. -/
def splitComma (s : String) : List String :=
  (splitCommaAux s.data []).map (fun l => ⟨l⟩)

/-- The `Interests` value of an inbound data item: absent (or otherwise
falsy), a comma-separated string, or an array of strings. -/
inductive InterestsInput where
  | absent
  | str (s : String)
  | arr (l : List String)
  deriving Repr, DecidableEq

/-- Embedding of the Interests normalization of the `POST` handler
(route.js lines 258-272): an absent/falsy value yields `[]`; a string is
split at commas, each piece trimmed and empty pieces dropped; an array has
each string element trimmed and falsy/empty elements dropped. -/
def normalizeInterests : InterestsInput → List String
  | .absent => []
  | .str s =>
      if s = "" then []
      else ((splitComma s).map jsTrim).filter (fun i => i ≠ "")
  | .arr l => (l.map jsTrim).filter (fun i => i ≠ "")

/-- One item of the inbound request's `data` array (route.js line 249). -/
structure SubscribeItem where
  Name : Option String
  Email : Option String
  Interests : InterestsInput
  deriving Repr, DecidableEq

/-- One item of the payload forwarded to Zoho CRM (route.js lines 248-279). -/
structure PayloadItem where
  Name : Option String
  Email : Option String
  Lead_Source : String
  Pick_Your_Interests : List String
  deriving Repr, DecidableEq

/-- Embedding of the per-item payload mapping of the `POST` handler
(route.js lines 249-278). -/
def buildPayloadItem (item : SubscribeItem) : PayloadItem :=
  { Name := item.Name.map jsTrim
    Email := item.Email.map jsTrim
    Lead_Source := "Website"
    Pick_Your_Interests := normalizeInterests item.Interests }

/-- The `data` field of an inbound request body: absent (or otherwise
falsy), present but not an array, or an array of items. -/
inductive BodyData where
  | missing
  | notArray
  | arr (items : List SubscribeItem)
  deriving Repr, DecidableEq

/-- The request-body validation of route.js line 221: the body is accepted
exactly when `data` is a non-empty array. -/
def validBody : BodyData → Bool
  | .arr items => !items.isEmpty
  | _ => false

/-- The error message of the 400 invalid-format response (route.js line
224). -/
def invalidFormatMsg : String :=
  "Invalid request format. Expected \x7b data: [...] \x7d"

/-- The message of the 401 token-failure response (route.js line 238). -/
def authFailedMsg : String :=
  "Authentication failed. Unable to get access token."

/-- The configuration error message thrown at route.js lines 58-60. -/
def missingCredsMsg (missing : List String) : String :=
  "Missing Zoho OAuth credentials: " ++ String.intercalate ", " missing ++
    ". Please set these environment variables."

/-- The downstream CRM call's observable result: an unparsable body (JSON
parse failure, route.js lines 298-309) or a parsed response. -/
inductive CrmResult where
  | unparsable (text : String)
  | parsed (r : ZohoResponse)
  deriving Repr, DecidableEq

/-- `responseText.substring(0, 200)` (route.js line 305). -/
def jsTake200 (s : String) : String :=
  ⟨s.data.take 200⟩

/-- Result of one sequential run of the `POST` handler: the HTTP response,
the cache left behind, and how many calls this run made to the Identity
Provider's token endpoint and to the CRM API. -/
structure PostResult where
  response : ApiResponse
  cache : TokenCache
  idpCalls : Nat
  crmCalls : Nat
  deriving Repr, DecidableEq

/-- The CRM stage of the `POST` handler (route.js lines 286-354), after a
token was obtained. -/
def postCrmStage (crm : CrmResult) (c : TokenCache) (idp : Nat) : PostResult :=
  match crm with
  | .unparsable text =>
      { response := { status := 500, success := none, recordId := none
                      message := none
                      error := some "Invalid response from Zoho API"
                      duplicateField := none
                      details := some (jsTake200 text) }
        cache := c, idpCalls := idp, crmCalls := 1 }
  | .parsed r =>
      { response := handleZohoResponse r, cache := c, idpCalls := idp
        crmCalls := 1 }

/-- The 401 response of route.js lines 236-242 with the token error's
message as `details`. -/
def postAuthFailure (msg : String) (c : TokenCache) (idp : Nat) : PostResult :=
  { response := { status := 401, success := none, recordId := none
                  message := none, error := some authFailedMsg
                  duplicateField := none, details := some msg }
    cache := c, idpCalls := idp, crmCalls := 0 }

/-- Sequential embedding of one run of the `POST` handler (route.js lines
216-354).  The oracles stand for the I/O this run observes: `exch` is the
outcome of a token exchange (performed by this run on the `startRefresh`
path, or by the concurrent leader it awaits on the `awaitExisting` path,
where the cache updates are the leader's and `idpCalls` counts only calls
this run initiates), `now2` is the `Date.now()` at token installation, and
`crm` is the downstream CRM response. -/
def POSTmodel (env : Env) (cache : TokenCache) (now : Nat) (body : BodyData)
    (exch : TokenExchangeResult) (now2 : Nat) (crm : CrmResult) : PostResult :=
  if validBody body = false then
    { response := { status := 400, success := none, recordId := none
                    message := none, error := some invalidFormatMsg
                    duplicateField := none, details := none }
      cache := cache, idpCalls := 0, crmCalls := 0 }
  else
    match getTokenStep env cache now with
    | .returnCached _tok => postCrmStage crm cache 0
    | .awaitExisting =>
        match runRefresh cache exch now2 with
        | (c2, .ok _tok) => postCrmStage crm c2 0
        | (c2, .error m) => postAuthFailure m c2 0
    | .configError missing =>
        postAuthFailure (missingCredsMsg missing) cache 0
    | .startRefresh _cfg =>
        match runRefresh cache exch now2 with
        | (c2, .ok _tok) => postCrmStage crm c2 1
        | (c2, .error m) => postAuthFailure m c2 1

/-- Options object of a JavaScript `fetch` call, restricted to the fields a
timeout mechanism would use plus the ones the route actually passes.  The
`fetch` API bounds a request either through an `AbortSignal` in `signal` or
(in runtimes that support it) a numeric timeout; a field is `none` when the
source passes no such option. -/
structure FetchOptions where
  method : String
  headers : List (String × String)
  hasBody : Bool
  timeoutMs : Option Nat
  signal : Option Unit
  deriving Repr, DecidableEq

/-- The options of the token-refresh `fetch` to the Identity Provider
(route.js lines 71-76): method and one header only; no body, no signal, no
timeout. -/
def tokenFetchOptions : FetchOptions :=
  { method := "POST"
    headers := [("Content-Type", "application/x-www-form-urlencoded")]
    hasBody := false
    timeoutMs := none
    signal := none }

/-- The options of the CRM `fetch` (route.js lines 286-293): method, two
headers and a body; no signal, no timeout. -/
def crmFetchOptions (accessToken : String) : FetchOptions :=
  { method := "POST"
    headers := [("Authorization", "Zoho-oauthtoken " ++ accessToken),
                ("Content-Type", "application/json")]
    hasBody := true
    timeoutMs := none
    signal := none }

/-- The options of the client form's `fetch` to `/api/zoho/subscribe`
(SubscribeForm, `src/unnamed/part_000` lines 115-123): this is the one call
in the repository bounded by an `AbortController` timeout, set to 30000 ms. -/
def clientFormFetchOptions : FetchOptions :=
  { method := "POST"
    headers := [("Content-Type", "application/json")]
    hasBody := true
    timeoutMs := some 30000
    signal := some () }

/-- Program counter of one concurrent caller of `getZohoAccessToken`.  The
JavaScript event loop runs each caller to completion between `await`
points, so a caller is either before its first segment (`start`), suspended
on the shared refresh promise (`waiting`), or finished with a token value
(`done`). -/
inductive CallerPC where
  | start
  | waiting
  | done (v : String)
  deriving Repr, DecidableEq

/-- Global state of the single-flight transition system: the shared module
cache, whether the leader's refresh IIFE has an unresolved `fetch`
outstanding, the resolution value of the shared refresh promise (held by
awaiting callers even after `refreshPromise` is cleared), the callers'
program counters, and the number of requests made so far to the Identity
Provider's token endpoint. -/
structure SFState where
  cache : TokenCache
  fetchPending : Bool
  promiseVal : Option String
  callers : List CallerPC
  fetchCount : Nat
  deriving Repr, DecidableEq

/-- Initial state of a burst of `n` concurrent callers against the empty
module cache. -/
def SFInit (n : Nat) : SFState :=
  { cache := initialCache
    fetchPending := false
    promiseVal := none
    callers := List.replicate n CallerPC.start
    fetchCount := 0 }

/-- Interleaving semantics of a burst of concurrent `getZohoAccessToken`
calls at instant `now`, where the Identity Provider answers a refresh with
token `tok` and `expires_in` value `ei` and the configuration is present.
Each constructor is one run-to-completion segment of route.js:

* `hitCache`: lines 27-38 — a caller finds the cache valid and returns the
  cached value.
* `joinRefresh`: lines 27-44 — a caller finds the cache invalid, sees a
  non-null `refreshPromise`, and suspends awaiting it.
* `leadRefresh`: lines 27-114 up to the first `await` — a caller finds the
  cache invalid and `refreshPromise` null, so it synchronously installs the
  new promise and issues the token request (the async IIFE runs
  synchronously until its `await fetch`), then suspends.
* `fetchResolve`: lines 78-111 — the pending request resolves; the IIFE
  installs the token via the `runRefresh` effect and clears
  `refreshPromise`, and the shared promise resolves with the token.
* `resume`: lines 43 / 114 — a suspended caller observes the resolved
  promise and returns its value. -/
inductive SFStep (now : Nat) (tok : String) (ei : Option Nat) :
    SFState → SFState → Prop where
  | hitCache (s : SFState) (i : Nat) (t : String) :
      s.callers.get? i = some CallerPC.start →
      isCacheValid s.cache now = true →
      s.cache.access_token = some t →
      SFStep now tok ei s { s with callers := s.callers.set i (CallerPC.done t) }
  | joinRefresh (s : SFState) (i : Nat) :
      s.callers.get? i = some CallerPC.start →
      isCacheValid s.cache now = false →
      s.cache.refreshActive = true →
      SFStep now tok ei s { s with callers := s.callers.set i CallerPC.waiting }
  | leadRefresh (s : SFState) (i : Nat) :
      s.callers.get? i = some CallerPC.start →
      isCacheValid s.cache now = false →
      s.cache.refreshActive = false →
      SFStep now tok ei s
        { s with cache := { s.cache with refreshActive := true }
                 fetchPending := true
                 fetchCount := s.fetchCount + 1
                 callers := s.callers.set i CallerPC.waiting }
  | fetchResolve (s : SFState) :
      s.fetchPending = true →
      SFStep now tok ei s
        { s with cache := (runRefresh s.cache (.success tok ei) now).1
                 fetchPending := false
                 promiseVal := some tok }
  | resume (s : SFState) (i : Nat) (v : String) :
      s.callers.get? i = some CallerPC.waiting →
      s.promiseVal = some v →
      SFStep now tok ei s { s with callers := s.callers.set i (CallerPC.done v) }

/-- Inductive invariant of the single-flight system: the token endpoint is
called at most once, the cache contents are determined by the phase
(untouched before the call, cleared-but-refreshing while the call is
pending, installed afterwards), and every finished caller holds `tok`. -/
def SFInv (now : Nat) (tok : String) (ei : Option Nat) (n : Nat)
    (s : SFState) : Prop :=
  s.callers.length = n ∧
  s.fetchCount ≤ 1 ∧
  (s.fetchCount = 0 →
    s.cache = initialCache ∧ s.fetchPending = false ∧ s.promiseVal = none ∧
      ∀ pc ∈ s.callers, pc = CallerPC.start) ∧
  (s.fetchCount = 1 → s.fetchPending = true →
    s.cache = { access_token := none, expires_at := 0, refreshActive := true } ∧
      s.promiseVal = none) ∧
  (s.fetchCount = 1 → s.fetchPending = false →
    s.cache = { access_token := some tok
                expires_at := now + defaultExpiresIn ei * 1000
                refreshActive := false } ∧
      s.promiseVal = some tok) ∧
  (∀ v, CallerPC.done v ∈ s.callers → v = tok)

theorem isCacheValid_initial (now : Nat) : isCacheValid initialCache now = false :=
  rfl

theorem isCacheValid_installed (tok : String) (now E : Nat)
    (hne : tok ≠ "") (hexp : 30000 < E) :
    isCacheValid
      { access_token := some tok, expires_at := now + E, refreshActive := false }
      now = true := by
  simp only [isCacheValid, optTruthy, Bool.and_eq_true, decide_eq_true_eq]
  refine ⟨⟨by simpa using hne, by omega⟩, ?_⟩
  push_cast
  omega

theorem sfInv_init (now : Nat) (tok : String) (ei : Option Nat) (n : Nat) :
    SFInv now tok ei n (SFInit n) := by
  refine ⟨List.length_replicate n _, by simp [SFInit], ?_, ?_, ?_, ?_⟩
  · intro _
    refine ⟨rfl, rfl, rfl, ?_⟩
    intro pc hpc
    exact List.eq_of_mem_replicate hpc
  · intro h
    simp [SFInit] at h
  · intro h
    simp [SFInit] at h
  · intro v hv
    have := List.eq_of_mem_replicate hv
    exact absurd this (by simp)

theorem sfInv_step (now : Nat) (tok : String) (ei : Option Nat) (n : Nat)
    (hne : tok ≠ "") (hexp : 30000 < defaultExpiresIn ei * 1000)
    {s s' : SFState} (hst : SFStep now tok ei s s')
    (hinv : SFInv now tok ei n s) : SFInv now tok ei n s' := by
  obtain ⟨hlen, hle, h0, h1p, h1d, hdone⟩ := hinv
  cases hst with
  | hitCache i t hget hvalid htok =>
      have hc0 : s.fetchCount ≠ 0 := by
        intro h
        obtain ⟨hcache, -, -, -⟩ := h0 h
        rw [hcache, isCacheValid_initial] at hvalid
        exact Bool.false_ne_true hvalid
      have hc1 : s.fetchCount = 1 := by omega
      have hpf : s.fetchPending = false := by
        cases hp : s.fetchPending with
        | false => rfl
        | true =>
            obtain ⟨hcache, -⟩ := h1p hc1 hp
            rw [hcache] at hvalid
            simp [isCacheValid, optTruthy] at hvalid
      obtain ⟨hcache, hpv⟩ := h1d hc1 hpf
      have ht : t = tok := by
        rw [hcache] at htok
        exact (Option.some.inj htok).symm
      refine ⟨by simpa using hlen, hle, fun h => absurd h hc0, h1p, h1d, ?_⟩
      intro v hv
      rcases List.mem_or_eq_of_mem_set hv with hmem | heq
      · exact hdone v hmem
      · cases heq
        exact ht.symm ▸ rfl
  | joinRefresh i hget hvalid hactive =>
      have hc0 : s.fetchCount ≠ 0 := by
        intro h
        obtain ⟨hcache, -, -, -⟩ := h0 h
        rw [hcache] at hactive
        exact Bool.false_ne_true hactive
      refine ⟨by simpa using hlen, hle, fun h => absurd h hc0, h1p, h1d, ?_⟩
      intro v hv
      rcases List.mem_or_eq_of_mem_set hv with hmem | heq
      · exact hdone v hmem
      · exact absurd heq (by simp)
  | leadRefresh i hget hvalid hinact =>
      have hc0 : s.fetchCount = 0 := by
        rcases Nat.eq_zero_or_pos s.fetchCount with h | h
        · exact h
        · exfalso
          have hc1 : s.fetchCount = 1 := by omega
          cases hp : s.fetchPending with
          | true =>
              obtain ⟨hcache, -⟩ := h1p hc1 hp
              rw [hcache] at hinact
              simp at hinact
          | false =>
              obtain ⟨hcache, -⟩ := h1d hc1 hp
              rw [hcache, isCacheValid_installed tok now _ hne hexp] at hvalid
              exact Bool.false_ne_true hvalid.symm
      obtain ⟨hcache, hpf, hpv, hall⟩ := h0 hc0
      refine ⟨by simpa using hlen, by show s.fetchCount + 1 ≤ 1; omega, ?_, ?_, ?_, ?_⟩
      · intro h
        have h2 : s.fetchCount + 1 = 0 := h
        omega
      · intro _ _
        refine ⟨?_, hpv⟩
        rw [hcache]
        rfl
      · intro _ h
        exact absurd h (by simp)
      · intro v hv
        rcases List.mem_or_eq_of_mem_set hv with hmem | heq
        · exact hdone v hmem
        · exact absurd heq (by simp)
  | fetchResolve hpend =>
      have hc1 : s.fetchCount = 1 := by
        rcases Nat.eq_zero_or_pos s.fetchCount with h | h
        · obtain ⟨-, hpf, -, -⟩ := h0 h
          rw [hpf] at hpend
          exact absurd hpend (by simp)
        · omega
      refine ⟨hlen, hle, ?_, ?_, ?_, hdone⟩
      · intro h
        have h2 : s.fetchCount = 0 := h
        omega
      · intro _ h
        exact absurd h (by simp)
      · intro _ _
        exact ⟨rfl, rfl⟩
  | resume i v hget hpv =>
      have hc1 : s.fetchCount = 1 := by
        rcases Nat.eq_zero_or_pos s.fetchCount with h | h
        · obtain ⟨-, -, hnil, -⟩ := h0 h
          rw [hnil] at hpv
          exact absurd hpv (by simp)
        · omega
      have hpf : s.fetchPending = false := by
        cases hp : s.fetchPending with
        | false => rfl
        | true =>
            obtain ⟨-, hnil⟩ := h1p hc1 hp
            rw [hnil] at hpv
            exact absurd hpv (by simp)
      obtain ⟨-, hsome⟩ := h1d hc1 hpf
      have hv : v = tok := by
        rw [hsome] at hpv
        exact (Option.some.inj hpv).symm
      refine ⟨by simpa using hlen, hle, ?_, h1p, h1d, ?_⟩
      · intro h
        have h2 : s.fetchCount = 0 := h
        omega
      intro w hw
      rcases List.mem_or_eq_of_mem_set hw with hmem | heq
      · exact hdone w hmem
      · cases heq
        exact hv

theorem sfInv_reachable (now : Nat) (tok : String) (ei : Option Nat) (n : Nat)
    (hne : tok ≠ "") (hexp : 30000 < defaultExpiresIn ei * 1000)
    {s : SFState}
    (hr : Relation.ReflTransGen (SFStep now tok ei) (SFInit n) s) :
    SFInv now tok ei n s := by
  induction hr with
  | refl => exact sfInv_init now tok ei n
  | tail _ hstep ih => exact sfInv_step now tok ei n hne hexp hstep ih

/-- C1: for every burst of N concurrent `getZohoAccessToken` calls issued
while the cache holds no valid credential, in every interleaving of the
event-loop segments, once all callers have completed exactly one request
was made to the Identity Provider's token endpoint and every caller
received the same token value; a caller that finds an in-flight refresh
awaits that refresh instead of starting its own (`joinRefresh` is the only
step enabled for it). -/
theorem C1_single_flight (now : Nat) (tok : String) (ei : Option Nat) (n : Nat)
    (hne : tok ≠ "") (hexp : 30000 < defaultExpiresIn ei * 1000) (hn : 0 < n)
    (s : SFState)
    (hr : Relation.ReflTransGen (SFStep now tok ei) (SFInit n) s)
    (hdone : ∀ pc ∈ s.callers, ∃ v, pc = CallerPC.done v) :
    s.fetchCount = 1 ∧ ∀ pc ∈ s.callers, pc = CallerPC.done tok := by
  obtain ⟨hlen, hle, h0, h1p, h1d, hdval⟩ :=
    sfInv_reachable now tok ei n hne hexp hr
  have hally : ∀ pc ∈ s.callers, pc = CallerPC.done tok := by
    intro pc hpc
    obtain ⟨v, rfl⟩ := hdone pc hpc
    rw [hdval v hpc]
  refine ⟨?_, hally⟩
  rcases Nat.eq_zero_or_pos s.fetchCount with h | h
  · exfalso
    obtain ⟨-, -, -, hall⟩ := h0 h
    have hnil : s.callers ≠ [] := by
      intro hnil
      rw [hnil] at hlen
      simp at hlen
      omega
    obtain ⟨pc, hpc⟩ := List.exists_mem_of_ne_nil s.callers hnil
    have h1 := hall pc hpc
    have h2 := hally pc hpc
    rw [h1] at h2
    exact absurd h2 (by simp)
  · omega

/-- Terminal state of the concrete one-caller single-flight run used to
witness `C1_single_flight`. -/
def sfRun1Final : SFState :=
  { cache := { access_token := some "T", expires_at := 3600000
               refreshActive := false }
    fetchPending := false
    promiseVal := some "T"
    callers := [CallerPC.done "T"]
    fetchCount := 1 }

theorem C1_single_flight_witness :
    sfRun1Final.fetchCount = 1 ∧
      ∀ pc ∈ sfRun1Final.callers, pc = CallerPC.done "T" := by
  refine C1_single_flight 0 "T" none 1 (by decide) (by decide) (by decide)
    sfRun1Final ?_ ?_
  · refine Relation.ReflTransGen.head
      (SFStep.leadRefresh (SFInit 1) 0 rfl rfl rfl) ?_
    refine Relation.ReflTransGen.head (SFStep.fetchResolve _ rfl) ?_
    refine Relation.ReflTransGen.head (SFStep.resume _ 0 "T" rfl rfl) ?_
    exact Relation.ReflTransGen.refl
  · intro pc hpc
    simp only [sfRun1Final, List.mem_singleton] at hpc
    exact ⟨"T", hpc⟩

/-- C2: the cached-credential validity check returns the cached token iff
the token value is present (truthy) and the current time is strictly before
the stored expiry minus the 30-second margin; a credential expiring in 10
seconds is invalid (and with no refresh in flight and configuration present
a refresh is started), one expiring in 31 seconds is valid. -/
theorem C2_expiry_check (c : TokenCache) (now : Nat) (env : Env) :
    (∀ s : String,
        getTokenFast c now = some s ↔
          (c.access_token = some s ∧ s ≠ "" ∧
            (now : Int) < (c.expires_at : Int) - 30000)) ∧
    (∀ s : String, s ≠ "" →
        isCacheValid
          { access_token := some s, expires_at := now + 10000
            refreshActive := false } now = false) ∧
    (∀ s : String, s ≠ "" →
        isCacheValid
          { access_token := some s, expires_at := now + 31000
            refreshActive := false } now = true) ∧
    (∀ s cfg, s ≠ "" → getZohoConfig env = .ok cfg →
        getTokenStep env
          { access_token := some s, expires_at := now + 10000
            refreshActive := false } now = .startRefresh cfg) := by
  have hinval : ∀ s : String,
      isCacheValid
        { access_token := some s, expires_at := now + 10000
          refreshActive := false } now = false := by
    intro s
    have hlt : ¬ ((now : Int) < ((now + 10000 : Nat) : Int) - 30000) := by
      push_cast
      omega
    simp [isCacheValid, hlt]
  refine ⟨?_, fun s _ => hinval s, ?_, ?_⟩
  · intro s
    constructor
    · intro h
      cases hv : isCacheValid c now with
      | false =>
          rw [getTokenFast, hv] at h
          simp at h
      | true =>
          rw [getTokenFast, hv] at h
          simp only [if_true] at h
          have hv2 := hv
          rw [isCacheValid, h] at hv2
          simp only [optTruthy, Bool.and_eq_true, decide_eq_true_eq] at hv2
          exact ⟨h, hv2.1.1, hv2.2⟩
    · rintro ⟨htok, hs, hlt⟩
      have hexp0 : c.expires_at ≠ 0 := by omega
      have hv : isCacheValid c now = true := by
        rw [isCacheValid, htok]
        simp only [optTruthy, Bool.and_eq_true, decide_eq_true_eq]
        exact ⟨⟨hs, hexp0⟩, hlt⟩
      rw [getTokenFast, hv]
      simpa using htok
  · intro s hs
    exact isCacheValid_installed s now 31000 hs (by omega)
  · intro s cfg hs hcfg
    rw [getTokenStep, hinval s]
    simp [hcfg]

theorem C2_expiry_check_witness :
    getTokenFast
      { access_token := some "tok", expires_at := 1031000
        refreshActive := false } 1000000 = some "tok" ∧
    isCacheValid
      { access_token := some "tok", expires_at := 1010000
        refreshActive := false } 1000000 = false := by
  constructor
  · exact ((C2_expiry_check
      { access_token := some "tok", expires_at := 1031000
        refreshActive := false } 1000000
      { ZOHO_CRM_REFRESH_TOKEN := none, ZOHO_CRM_CLIENT_ID := none
        ZOHO_CRM_CLIENT_SECRET := none
        ZOHO_CRM_ACCOUNTS_DOMAIN := none }).1 "tok").mpr
      ⟨rfl, by decide, by decide⟩
  · exact (C2_expiry_check
      { access_token := some "tok", expires_at := 1010000
        refreshActive := false } 1000000
      { ZOHO_CRM_REFRESH_TOKEN := none, ZOHO_CRM_CLIENT_ID := none
        ZOHO_CRM_CLIENT_SECRET := none
        ZOHO_CRM_ACCOUNTS_DOMAIN := none }).2.1 "tok" (by decide)

/-- C3: on every exit path of a refresh, success or failure, the in-flight
refresh handle is cleared; on failure the cached token and expiry are also
cleared, so that for any instant and any present configuration a subsequent
`getZohoAccessToken` call starts a new refresh (it neither returns a cached
value nor waits on an existing handle). -/
theorem C3_release_unconditional (c : TokenCache) (r : TokenExchangeResult)
    (now2 : Nat) :
    ((runRefresh c r now2).1.refreshActive = false) ∧
    (∀ m, r = .failure m →
      (runRefresh c r now2).1.access_token = none ∧
      (runRefresh c r now2).1.expires_at = 0 ∧
      (∀ now env cfg, getZohoConfig env = .ok cfg →
        getTokenStep env (runRefresh c r now2).1 now = .startRefresh cfg)) := by
  constructor
  · cases r <;> rfl
  · rintro m rfl
    refine ⟨rfl, rfl, ?_⟩
    intro now env cfg hcfg
    rw [getTokenStep]
    simp [runRefresh, isCacheValid, optTruthy, hcfg]

theorem C3_release_unconditional_witness :
    (runRefresh initialCache (.failure "boom") 5).1.refreshActive = false ∧
    getTokenStep
      { ZOHO_CRM_REFRESH_TOKEN := some "r", ZOHO_CRM_CLIENT_ID := some "i"
        ZOHO_CRM_CLIENT_SECRET := some "s", ZOHO_CRM_ACCOUNTS_DOMAIN := none }
      (runRefresh initialCache (.failure "boom") 5).1 7 =
      .startRefresh
        { refreshToken := "r", clientId := "i", clientSecret := "s"
          accountsDomain := "https://accounts.zoho.in" } := by
  have h := C3_release_unconditional initialCache (.failure "boom") 5
  exact ⟨h.1, (h.2 "boom" rfl).2.2 7
    { ZOHO_CRM_REFRESH_TOKEN := some "r", ZOHO_CRM_CLIENT_ID := some "i"
      ZOHO_CRM_CLIENT_SECRET := some "s", ZOHO_CRM_ACCOUNTS_DOMAIN := none }
    { refreshToken := "r", clientId := "i", clientSecret := "s"
      accountsDomain := "https://accounts.zoho.in" } rfl⟩

/-- C4: for every duplicate-data error the classifier returns a non-null
`duplicateField` and status 409; in particular an input with no `api_name`
detail whose message contains "email" (case-insensitively) yields
`duplicateField = "Email"`. -/
theorem C4_duplicate_field (msg : Option String) (det : Option ZohoDetails) :
    ((mapZohoError (some "DUPLICATE_DATA") msg det).duplicateField ≠ none ∧
     (mapZohoError (some "DUPLICATE_DATA") msg det).status = 409) ∧
    (∀ m : String, containsCI m "email" = true →
        mapZohoError (some "DUPLICATE_DATA") (some m) none =
          { message := dupEmailMsg, duplicateField := some "Email"
            status := 409 }) := by
  constructor
  · rw [mapZohoError.eq_def]
    simp
  · intro m hm
    rw [mapZohoError.eq_def]
    simp [hm]

theorem C4_duplicate_field_witness :
    mapZohoError (some "DUPLICATE_DATA")
        (some "duplicate data: Email already exists") none =
      { message := dupEmailMsg, duplicateField := some "Email"
        status := 409 } :=
  (C4_duplicate_field (some "duplicate data: Email already exists") none).2
    "duplicate data: Email already exists" (by decide)

/-- Is the head of the character list a non-whitespace character (or the
list empty)?  Together with `lastNotWS` this states that a string carries no
surrounding whitespace, i.e. is trimmed. -/
def headNotWS (l : List Char) : Bool :=
  match l.head? with
  | none => true
  | some c => !jsWS c

/-- Is the last character of the list non-whitespace (or the list empty)? -/
def lastNotWS (l : List Char) : Bool :=
  match l.getLast? with
  | none => true
  | some c => !jsWS c

/-- A string is trimmed when it neither starts nor ends with whitespace. -/
def isTrimmedStr (s : String) : Bool :=
  headNotWS s.data && lastNotWS s.data

theorem headNotWS_dropWhile (l : List Char) :
    headNotWS (l.dropWhile jsWS) = true := by
  induction l with
  | nil => rfl
  | cons c t ih =>
      rw [List.dropWhile_cons]
      cases hc : jsWS c with
      | true => simpa [hc] using ih
      | false => simp [hc, headNotWS]

theorem lastNotWS_dropWhile (l : List Char) (h : lastNotWS l = true) :
    lastNotWS (l.dropWhile jsWS) = true := by
  cases hd : l.dropWhile jsWS with
  | nil => rfl
  | cons c t =>
      obtain ⟨u, hu⟩ := List.dropWhile_suffix (l := l) jsWS
      rw [lastNotWS] at h ⊢
      rw [hd] at hu
      rw [← hu, List.getLast?_append_of_ne_nil u (by simp)] at h
      exact h

theorem isTrimmedStr_jsTrim (s : String) : isTrimmedStr (jsTrim s) = true := by
  rw [isTrimmedStr, jsTrim]
  have hdata : (String.mk (trimChars s.data)).data = trimChars s.data := rfl
  rw [hdata, trimChars]
  have hb : headNotWS ((s.data.dropWhile jsWS).reverse.dropWhile jsWS) = true :=
    headNotWS_dropWhile _
  have hlast : lastNotWS ((s.data.dropWhile jsWS).reverse.dropWhile jsWS) = true := by
    refine lastNotWS_dropWhile _ ?_
    rw [lastNotWS, List.getLast?_reverse]
    have := headNotWS_dropWhile s.data
    rw [headNotWS] at this
    exact this
  rw [Bool.and_eq_true]
  constructor
  · rw [headNotWS, List.head?_reverse]
    rw [lastNotWS] at hlast
    exact hlast
  · rw [lastNotWS, List.getLast?_reverse]
    rw [headNotWS] at hb
    exact hb

/-- C5 as stated is false: the normalization does not de-duplicate.  The
string input "a,a" normalizes to `["a", "a"]`, in which "a" appears
twice. -/
theorem C5_counterexample :
    normalizeInterests (InterestsInput.str "a,a") = ["a", "a"] ∧
      ¬ (normalizeInterests (InterestsInput.str "a,a")).Nodup := by
  constructor
  · decide
  · decide

/-- C5 (amended): every element of the normalized Interests array — whether
the input was a comma-separated string or an array — is trimmed (no leading
or trailing whitespace) and non-empty; no de-duplication is performed. -/
theorem C5_interests_normalized (v : InterestsInput) :
    ∀ x ∈ normalizeInterests v, isTrimmedStr x = true ∧ x ≠ "" := by
  intro x hx
  cases v with
  | absent => simp [normalizeInterests] at hx
  | str s =>
      rw [normalizeInterests] at hx
      split at hx
      · simp at hx
      · rw [List.mem_filter] at hx
        obtain ⟨hmem, hne⟩ := hx
        obtain ⟨y, -, rfl⟩ := List.mem_map.mp hmem
        exact ⟨isTrimmedStr_jsTrim y, by simpa using hne⟩
  | arr l =>
      rw [normalizeInterests, List.mem_filter] at hx
      obtain ⟨hmem, hne⟩ := hx
      obtain ⟨y, -, rfl⟩ := List.mem_map.mp hmem
      exact ⟨isTrimmedStr_jsTrim y, by simpa using hne⟩

theorem C5_interests_normalized_witness :
    isTrimmedStr "a" = true ∧ "a" ≠ "" :=
  C5_interests_normalized (InterestsInput.str " a ,  , b ") "a" (by decide)

/-- C6: when any of the three required credentials is absent or blank
(whitespace-only), configuration extraction fails with an error naming
exactly the missing variables; a broker call in that situation reports the
configuration error without starting a refresh (no network request, no
retry); the accounts domain has a default and its absence is not an
error. -/
theorem C6_config_fatal (env : Env) (c : TokenCache) (now : Nat) :
    ((∃ e, getZohoConfig env = .error e) ↔
        (optTruthy (envTrim env.ZOHO_CRM_REFRESH_TOKEN) = false ∨
         optTruthy (envTrim env.ZOHO_CRM_CLIENT_ID) = false ∨
         optTruthy (envTrim env.ZOHO_CRM_CLIENT_SECRET) = false)) ∧
    (∀ missing, getZohoConfig env = .error missing →
        missing ≠ [] ∧
        ("ZOHO_CRM_REFRESH_TOKEN" ∈ missing ↔
            optTruthy (envTrim env.ZOHO_CRM_REFRESH_TOKEN) = false) ∧
        ("ZOHO_CRM_CLIENT_ID" ∈ missing ↔
            optTruthy (envTrim env.ZOHO_CRM_CLIENT_ID) = false) ∧
        ("ZOHO_CRM_CLIENT_SECRET" ∈ missing ↔
            optTruthy (envTrim env.ZOHO_CRM_CLIENT_SECRET) = false)) ∧
    (∀ missing, getZohoConfig env = .error missing →
        isCacheValid c now = false → c.refreshActive = false →
        getTokenStep env c now = .configError missing) ∧
    (env.ZOHO_CRM_ACCOUNTS_DOMAIN = none →
        ∀ cfg, getZohoConfig env = .ok cfg →
          cfg.accountsDomain = "https://accounts.zoho.in") := by
  cases h1 : optTruthy (envTrim env.ZOHO_CRM_REFRESH_TOKEN) with
  | _ =>
  cases h2 : optTruthy (envTrim env.ZOHO_CRM_CLIENT_ID) with
  | _ =>
  cases h3 : optTruthy (envTrim env.ZOHO_CRM_CLIENT_SECRET) with
  | _ =>
  all_goals (
    refine ⟨?_, ?_, ?_, ?_⟩
    · rw [getZohoConfig]
      simp [h1, h2, h3]
    · intro missing hmiss
      rw [getZohoConfig] at hmiss
      simp only [h1, h2, h3, Bool.and_self, Bool.and_true, Bool.and_false,
        Bool.false_and, Bool.true_and, if_true, if_false, Bool.false_eq_true,
        reduceIte] at hmiss
      first
        | exact Except.noConfusion hmiss
        | (injection hmiss with h4
           subst h4
           simp [h1, h2, h3])
    · intro missing hmiss hval hact
      rw [getTokenStep, hval]
      simp only [Bool.false_eq_true, if_false, hact, hmiss]
    · intro hdom cfg hcfg
      rw [getZohoConfig] at hcfg
      simp only [h1, h2, h3, hdom, Bool.and_self, Bool.and_true,
        Bool.and_false, Bool.false_and, Bool.true_and, Bool.false_eq_true,
        reduceIte] at hcfg
      first
        | exact Except.noConfusion hcfg
        | (injection hcfg with h4
           subst h4
           rfl))

theorem C6_config_fatal_witness :
    getZohoConfig
        { ZOHO_CRM_REFRESH_TOKEN := none, ZOHO_CRM_CLIENT_ID := some "id"
          ZOHO_CRM_CLIENT_SECRET := some "  "
          ZOHO_CRM_ACCOUNTS_DOMAIN := none } =
      .error ["ZOHO_CRM_REFRESH_TOKEN", "ZOHO_CRM_CLIENT_SECRET"] ∧
    getTokenStep
        { ZOHO_CRM_REFRESH_TOKEN := none, ZOHO_CRM_CLIENT_ID := some "id"
          ZOHO_CRM_CLIENT_SECRET := some "  "
          ZOHO_CRM_ACCOUNTS_DOMAIN := none } initialCache 0 =
      .configError ["ZOHO_CRM_REFRESH_TOKEN", "ZOHO_CRM_CLIENT_SECRET"] := by
  have h := C6_config_fatal
    { ZOHO_CRM_REFRESH_TOKEN := none, ZOHO_CRM_CLIENT_ID := some "id"
      ZOHO_CRM_CLIENT_SECRET := some "  "
      ZOHO_CRM_ACCOUNTS_DOMAIN := none } initialCache 0
  exact ⟨rfl, h.2.2.1 ["ZOHO_CRM_REFRESH_TOKEN", "ZOHO_CRM_CLIENT_SECRET"]
    rfl rfl rfl⟩

/-- C7: the HTTP status returned for a classified downstream response
follows the outcome kind: success yields 200 with `success`, `recordId` and
a message; `MANDATORY_NOT_FOUND` and `INVALID_DATA` yield 400;
`DUPLICATE_DATA` yields 409 with a non-null `duplicateField`;
`AUTHENTICATION_FAILURE` yields 401; any other error yields 400 or 500,
with an error message. -/
theorem C7_status_by_outcome (r : ZohoResponse) :
    (isSuccessResp r = true →
        (handleZohoResponse r).status = 200 ∧
        (handleZohoResponse r).success = some true ∧
        (handleZohoResponse r).recordId = (respDetails r).bind (fun d => d.id) ∧
        (handleZohoResponse r).message =
          some "Successfully subscribed to newsletter") ∧
    (isSuccessResp r = false →
        (handleZohoResponse r).error ≠ none ∧
        (respCode r = some "MANDATORY_NOT_FOUND" →
            (handleZohoResponse r).status = 400) ∧
        (respCode r = some "INVALID_DATA" →
            (handleZohoResponse r).status = 400) ∧
        (respCode r = some "AUTHENTICATION_FAILURE" →
            (handleZohoResponse r).status = 401) ∧
        (respCode r = some "DUPLICATE_DATA" →
            (handleZohoResponse r).status = 409 ∧
            (handleZohoResponse r).duplicateField ≠ none) ∧
        ((respCode r ≠ some "MANDATORY_NOT_FOUND" ∧
          respCode r ≠ some "INVALID_DATA" ∧
          respCode r ≠ some "AUTHENTICATION_FAILURE" ∧
          respCode r ≠ some "DUPLICATE_DATA") →
            (handleZohoResponse r).status = 400 ∨
            (handleZohoResponse r).status = 500)) := by
  constructor
  · intro hs
    rw [handleZohoResponse, hs]
    exact ⟨rfl, rfl, rfl, rfl⟩
  · intro hs
    rw [handleZohoResponse, hs]
    simp only [Bool.false_eq_true, if_false]
    refine ⟨by simp, ?_, ?_, ?_, ?_, ?_⟩
    · intro hc
      rw [mapZohoError.eq_def, hc]
      simp
    · intro hc
      rw [mapZohoError.eq_def, hc]
      simp
    · intro hc
      rw [mapZohoError.eq_def, hc]
      simp
    · intro hc
      rw [mapZohoError.eq_def, hc]
      simp
    · rintro ⟨h1, h2, h3, h4⟩
      left
      rw [mapZohoError.eq_def]
      simp [h1, h2, h3, h4]

theorem C7_status_by_outcome_witness :
    (handleZohoResponse
      { data := some [{ code := some "SUCCESS", status := some "success"
                        message := some "record added"
                        details := some { api_name := none
                                          id := some "123" } }]
        message := none }).status = 200 ∧
    (handleZohoResponse
      { data := some [{ code := some "DUPLICATE_DATA", status := some "error"
                        message := some "duplicate data"
                        details := none }]
        message := none }).status = 409 := by
  constructor
  · exact ((C7_status_by_outcome
      { data := some [{ code := some "SUCCESS", status := some "success"
                        message := some "record added"
                        details := some { api_name := none
                                          id := some "123" } }]
        message := none }).1 (by decide)).1
  · exact (((C7_status_by_outcome
      { data := some [{ code := some "DUPLICATE_DATA", status := some "error"
                        message := some "duplicate data"
                        details := none }]
        message := none }).2 (by decide)).2.2.2.2.1 rfl).1

/-- C8 as stated is false: neither of the two server-side network
exchanges — the token-refresh `fetch` to the Identity Provider and the CRM
`fetch` — carries an explicit timeout or abort signal in its options. -/
theorem C8_counterexample :
    ¬ ((tokenFetchOptions.timeoutMs ≠ none ∨ tokenFetchOptions.signal ≠ none) ∧
       ((crmFetchOptions "tok").timeoutMs ≠ none ∨
        (crmFetchOptions "tok").signal ≠ none)) := by
  simp [tokenFetchOptions, crmFetchOptions]

/-- C8 (amended): the server's two network exchanges specify no explicit
timeout or abort signal; the only 30-second timeout in the repository is on
the client form's fetch to the API route; independently of timeouts, the
in-flight refresh handle is released whenever a refresh settles, success or
failure. -/
theorem C8_no_server_timeout (t : String) (c : TokenCache)
    (r : TokenExchangeResult) (now2 : Nat) :
    tokenFetchOptions.timeoutMs = none ∧ tokenFetchOptions.signal = none ∧
    (crmFetchOptions t).timeoutMs = none ∧ (crmFetchOptions t).signal = none ∧
    clientFormFetchOptions.timeoutMs = some 30000 ∧
    (runRefresh c r now2).1.refreshActive = false := by
  refine ⟨rfl, rfl, rfl, rfl, rfl, ?_⟩
  cases r <;> rfl

/-- C9: a successful token exchange installs the returned `access_token`
with expiry `now2 + expires_in * 1000`, where `expires_in` defaults to 3600
seconds when absent, and yields the token to the caller; the validation
step extracts `access_token` and `expires_in` from the provider
response. -/
theorem C9_token_install (c : TokenCache) (tok : String) (ei : Option Nat)
    (now2 : Nat) :
    ((runRefresh c (.success tok ei) now2).1.access_token = some tok) ∧
    ((runRefresh c (.success tok ei) now2).2 = Except.ok tok) ∧
    ((runRefresh c (.success tok ei) now2).1.expires_at =
        now2 + defaultExpiresIn ei * 1000) ∧
    (ei = none →
        (runRefresh c (.success tok ei) now2).1.expires_at =
          now2 + 3600 * 1000) ∧
    (∀ n, ei = some n → n ≠ 0 →
        (runRefresh c (.success tok ei) now2).1.expires_at =
          now2 + n * 1000) ∧
    (∀ td : TokenRespData, td.access_token = some tok → tok ≠ "" →
        validateTokenResponse true td = .success tok td.expires_in) := by
    refine ⟨rfl, rfl, rfl, ?_, ?_, ?_⟩
    · rintro rfl
      rfl
    · rintro n rfl hn
      show now2 + defaultExpiresIn (some n) * 1000 = now2 + n * 1000
      rw [defaultExpiresIn, if_neg hn]
    · intro td htd hne
      rw [validateTokenResponse, htd]
      simp [hne]

theorem C9_token_install_witness :
    (runRefresh initialCache (.success "T" none) 1000).1.expires_at =
        1000 + 3600 * 1000 ∧
    (runRefresh initialCache (.success "T" (some 600)) 1000).1.expires_at =
        1000 + 600 * 1000 := by
  constructor
  · exact (C9_token_install initialCache "T" none 1000).2.2.2.1 rfl
  · exact (C9_token_install initialCache "T" (some 600) 1000).2.2.2.2.1 600
      rfl (by decide)

/-- C10: a request body whose `data` field is absent, not an array, or an
empty array is answered with HTTP 400 and the invalid-format error before
any token acquisition or network call: the handler makes zero calls to the
Identity Provider and zero calls to the CRM, and the cache is returned
unchanged. -/
theorem C10_invalid_body (env : Env) (cache : TokenCache) (now : Nat)
    (body : BodyData) (exch : TokenExchangeResult) (now2 : Nat)
    (crm : CrmResult) (h : validBody body = false) :
    POSTmodel env cache now body exch now2 crm =
      { response := { status := 400, success := none, recordId := none
                      message := none, error := some invalidFormatMsg
                      duplicateField := none, details := none }
        cache := cache, idpCalls := 0, crmCalls := 0 } := by
  rw [POSTmodel.eq_def, if_pos h]

theorem C10_invalid_body_witness :
    POSTmodel
        { ZOHO_CRM_REFRESH_TOKEN := some "r", ZOHO_CRM_CLIENT_ID := some "i"
          ZOHO_CRM_CLIENT_SECRET := some "s", ZOHO_CRM_ACCOUNTS_DOMAIN := none }
        initialCache 0 BodyData.missing (.success "T" none) 0
        (CrmResult.parsed { data := none, message := none }) =
      { response := { status := 400, success := none, recordId := none
                      message := none, error := some invalidFormatMsg
                      duplicateField := none, details := none }
        cache := initialCache, idpCalls := 0, crmCalls := 0 } :=
  C10_invalid_body
    { ZOHO_CRM_REFRESH_TOKEN := some "r", ZOHO_CRM_CLIENT_ID := some "i"
      ZOHO_CRM_CLIENT_SECRET := some "s", ZOHO_CRM_ACCOUNTS_DOMAIN := none }
    initialCache 0 BodyData.missing (.success "T" none) 0
    (CrmResult.parsed { data := none, message := none }) rfl

end AarnaZoho
